import Mathlib

/-!
Verification of the magnifier-extractor pipeline (src/app.py, src/vision_model.py)
against its specification.

The Python source is shallowly embedded: Python values that flow between the
adapters and the pipeline are modelled by inductive types recording exactly the
information the source inspects (truthiness of dict entries, presence of
attributes, raised exceptions as explicit outcome constructors that the
corresponding `except` clause absorbs).
-/

namespace Magnifier

/-! ## Data model (vision_model.py) -/

/-- The `page_number` field of a MagnifierItem: `int | str | None` in the
pydantic schema (vision_model.py line 21). -/
inductive PageNumber where
  | int (n : Int)
  | str (s : String)
  | null
  deriving DecidableEq, Repr

/-- One structured item of the extractor response (pydantic `MagnifierItem`,
vision_model.py lines 19-22). -/
structure MagnifierItem where
  cycle_id : Int
  page_number : PageNumber
  text_after_symbol : String
  deriving DecidableEq, Repr

/-- The extractor's constrained output schema (pydantic `MagnifierPage`,
vision_model.py lines 24-25). -/
structure MagnifierPage where
  magnifier_items : List MagnifierItem
  deriving DecidableEq, Repr

/-- One row of the result list built in `extract_magnifier_text`
(app.py lines 66-72).  The source dict has keys page_id, cycle_id,
page_number, text, has_magnifier. -/
structure MarkerRecord where
  page_id : Nat
  cycle_id : Int
  page_number : PageNumber
  text : String
  has_magnifier : Bool
  deriving DecidableEq, Repr

/-! ## Classifier adapter (vision_model.py `detect_magnifier_gemini`,
app.py `detect_magnifier`)

`detect_magnifier_gemini` returns a Python bool on the normal path and the
dict with keys success=False, error=str on its internal exception path.
`detect_magnifier` in app.py then branches on `isinstance(detect_result, dict)`
and otherwise coerces with `bool()`.  We model the value handed back by the
adapter by what `detect_magnifier` observes of it: for a dict, the truthiness
of the values at keys success and found (`none` when the key is absent,
`some b` when present with truthiness `b`); for a non-dict, its `bool()`
coercion. -/

/-- A value returned by the classifier adapter call inside `detect_magnifier`,
or the fact that the call raised (`raised` is absorbed by the
try/except of app.py lines 45-55). -/
inductive DetectOutcome where
  | raised
  | dict (success found : Option Bool)
  | nondict (truthy : Bool)
  deriving DecidableEq, Repr

/-- app.py `detect_magnifier` (lines 43-55): on a dict result it computes
`detect_result.get("success", False) and detect_result.get("found", False)`
(Python truthiness of that expression), on a non-dict `bool(detect_result)`,
and on an exception it returns False. -/
def detect_magnifier : DetectOutcome → Bool
  | .raised => false
  | .dict success found => success.getD false && found.getD false
  | .nondict truthy => truthy

/-- What the Gemini call inside `detect_magnifier_gemini` produced before the
wrapper's own exception handling: the response text, or an exception. -/
inductive GeminiOutcome where
  | ok (responseText : String)
  | exn
  deriving DecidableEq, Repr

/-- Python str.strip: drop whitespace from both ends. -/
def pyStrip (s : String) : String := s.trim

/-- ASCII lowercasing of one character, the fragment of Python str.lower
the source relies on (it only ever compares against ASCII literals). -/
def asciiLower (c : Char) : Char :=
  if 'A' ≤ c ∧ c ≤ 'Z' then Char.ofNat (c.toNat + 32) else c

/-- Python str.lower restricted to ASCII, which is all the source compares. -/
def pyLower (s : String) : String := String.mk (s.data.map asciiLower)

/-- Python str.endswith on the underlying character sequences. -/
def pyEndsWith (s suffix : String) : Bool :=
  List.isSuffixOf suffix.data s.data

/-- vision_model.py `detect_magnifier_gemini` (lines 35-77): on the normal
path it returns the bool `response.text.strip().lower() == 'yes'`; on any
exception it returns the dict with success=False (falsy value) and an
error string, and no found key. -/
def detect_magnifier_gemini : GeminiOutcome → DetectOutcome
  | .ok responseText => .nondict (pyLower (pyStrip responseText) == "yes")
  | .exn => .dict (some false) none

/-! ## Extractor adapter (vision_model.py `extract_text`,
app.py `extract_magnifier_text`) -/

/-- The value `vision_processor.extract_text` hands back to
`extract_magnifier_text`, or the fact that the call raised.
`extract_text` itself never raises: it returns the parsed `MagnifierPage`,
or None on a parse/validation error (vision_model.py line 202), or the
fallback dict on an outer exception (line 206); that dict has no
`magnifier_items` attribute.  `raised` covers an exception inside
`extract_magnifier_text` itself, absorbed by app.py lines 77-79. -/
inductive ExtractOutcome where
  | parsed (page : MagnifierPage)
  | noneResult
  | fallbackDict
  | raised
  deriving DecidableEq, Repr

/-- The truthiness-and-hasattr guard of app.py line 62:
`extracted_data and hasattr(extracted_data, 'magnifier_items')`.
A parsed pydantic model is truthy and has the attribute; None is falsy;
the fallback dict is truthy but has no such attribute. -/
def extractGuard : ExtractOutcome → Bool
  | .parsed _ => true
  | .noneResult => false
  | .fallbackDict => false
  | .raised => false

/-- The row built for one item in app.py lines 66-72. -/
def itemToRecord (page_id : Nat) (item : MagnifierItem) : MarkerRecord :=
  { page_id := page_id
    cycle_id := item.cycle_id
    page_number := item.page_number
    text := item.text_after_symbol
    has_magnifier := true }

/-- app.py `extract_magnifier_text` (lines 57-79): when the guard passes,
one dict per `magnifier_items` element in order; otherwise (no items
attribute, None, or an exception) the empty list. -/
def extract_magnifier_text (outcome : ExtractOutcome) (page_id : Nat) :
    List MarkerRecord :=
  match outcome with
  | .parsed page => page.magnifier_items.map (itemToRecord page_id)
  | _ => []

/-! ## Page pipeline (app.py `process_page`) -/

/-- Result of one `process_page` call, together with whether the extractor
adapter was invoked on that page. -/
structure PageResult where
  records : List MarkerRecord
  extractorInvoked : Bool
  deriving DecidableEq, Repr

/-- app.py `process_page` (lines 81-99): classify, and only on a positive
classification call the extractor; both callees absorb their own
exceptions, and the outer try/except returns the empty list as well. -/
def process_page (classifier : DetectOutcome) (extractor : ExtractOutcome)
    (page_id : Nat) : PageResult :=
  if detect_magnifier classifier then
    { records := extract_magnifier_text extractor page_id
      extractorInvoked := true }
  else
    { records := [], extractorInvoked := false }

/-- The classifier-adapter outcomes the spec calls failures: a raised
exception, a malformed or non-conforming dict response (success or found
absent or falsy), or an explicit negative non-dict answer. -/
def classifierFailure : DetectOutcome → Bool
  | .raised => true
  | .dict success found => !(success.getD false && found.getD false)
  | .nondict truthy => !truthy

/-! ## Input validation (app.py `validate_pdf`) -/

/-- The two attributes of a streamlit upload that `validate_pdf` reads. -/
structure UploadedFile where
  name : String
  size : Nat
  deriving DecidableEq, Repr

/-- app.py `validate_pdf` (lines 22-35): reject None, reject unless
`file.name.lower().endswith('.pdf')`, reject when
`file.size > 50 * 1024 * 1024`, else accept. -/
def validate_pdf : Option UploadedFile → Bool
  | none => false
  | some file =>
    if !pyEndsWith (pyLower file.name) ".pdf" then false
    else if file.size > 50 * 1024 * 1024 then false
    else true

/-! ## Run orchestrator (the processing loop of app.py `main`, lines 226-314)

The loop `for i in range(start_page - 1, end_page)` processes 1-based page
ids `start_page .. end_page`.  Per iteration it first updates the progress
bar and status text, then inside a try/except rasterizes the page if its
cached image is missing, displays it, classifies, and on a positive
classification extracts and appends the page's records; any exception in
the try body is caught and the loop continues with the next page. -/

/-- What the rasterization block (app.py lines 261-277) did for one page:
the image was already cached; `convert_from_path` rendered it; it returned
an empty list (so nothing was saved and the subsequent image display
raises); or it raised.  In the last two cases the page's iteration is
aborted by the surrounding except/continue before the classifier runs. -/
inductive RasterOutcome where
  | cached
  | rendered
  | renderEmpty
  | raised
  deriving DecidableEq, Repr

/-- Whether the try body survives the rasterize-and-display block and
reaches the classifier call. -/
def rasterOk : RasterOutcome → Bool
  | .cached => true
  | .rendered => true
  | .renderEmpty => false
  | .raised => false

/-- The adapter outcomes for a single page of a run. -/
structure PageEnv where
  raster : RasterOutcome
  classifier : DetectOutcome
  extractor : ExtractOutcome

/-- The records one page contributes to `results` in `main`: none when the
page-level try body fails before classification, otherwise exactly what
the inlined classify-then-extract sequence (app.py lines 280-299) yields,
which coincides with `process_page`. -/
def mainPageRecords (env : PageEnv) (page_id : Nat) : List MarkerRecord :=
  if rasterOk env.raster then
    if detect_magnifier env.classifier then
      extract_magnifier_text env.extractor page_id
    else []
  else []

/-- The numbers one progress emission carries (app.py lines 253-255): the
status text shows `pageAbs/totalPages (pageInRange/totalInRange)` and the
progress bar is set to the ratio pageInRange / totalInRange. -/
structure ProgressUpdate where
  pageAbs : Nat
  totalPages : Nat
  pageInRange : Nat
  totalInRange : Nat
  deriving DecidableEq, Repr

/-- Observable state accumulated by the processing loop: the `results`
list, the emitted progress updates, and how many loop iterations ran. -/
structure RunState where
  records : List MarkerRecord
  updates : List ProgressUpdate
  pagesIterated : Nat
  deriving DecidableEq, Repr

/-- One iteration of the loop for 1-based page id `pid` (`pid = i + 1` in
the source): emit the progress update, then let the page contribute its
records.  With `i = pid - 1`, the status numbers `i + 1` and
`i - start_page + 2` are `pid` and `pid - start + 1`. -/
def runStep (totalPages start endp : Nat) (envs : Nat → PageEnv)
    (st : RunState) (pid : Nat) : RunState :=
  { records := st.records ++ mainPageRecords (envs pid) pid
    updates := st.updates ++
      [⟨pid, totalPages, pid - start + 1, endp + 1 - start⟩]
    pagesIterated := st.pagesIterated + 1 }

/-- The 1-based page ids visited by `range(start_page - 1, end_page)`. -/
def pageIds (start endp : Nat) : List Nat :=
  List.range' start (endp + 1 - start)

/-- The whole processing loop over the selected range. -/
def runRange (totalPages start endp : Nat) (envs : Nat → PageEnv) :
    RunState :=
  (pageIds start endp).foldl (runStep totalPages start endp envs)
    ⟨[], [], 0⟩

/-- The count reported by the final success message
(app.py line 314: Found len(results) magnifiers). -/
def finalTally (totalPages start endp : Nat) (envs : Nat → PageEnv) : Nat :=
  (runRange totalPages start endp envs).records.length

/-- The number of distinct pages that contributed at least one record. -/
def distinctPagesWithRecords (records : List MarkerRecord) : Nat :=
  (records.map MarkerRecord.page_id).dedup.length

/-! ## Rasterizer cache (app.py lines 156-161 and 258-269) -/

/-- The deterministic cached-image path used by the source:
`Path("data") / filename / "images" / ("page_" + str(i+1) + ".png")`. -/
def imagePath (filename : String) (n : Nat) : String :=
  "data/" ++ filename ++ "/images/page_" ++ toString n ++ ".png"

/-- Modelled from the spec: section 6 claims the cache path is
`<document-name>/images/page_<n>.png`, derived from the document's base
name and the page number, with no further components. -/
def specCachePath (documentName : String) (n : Nat) : String :=
  documentName ++ "/images/page_" ++ toString n ++ ".png"

/-- One rasterizer-adapter invocation (app.py lines 261-269) on a cache
holding the set of existing files: if the page's image path exists, nothing
is rendered; otherwise `convert_from_path` runs and, when it produces an
image (`renderOk`), the image is saved at the path.  Returns the new cache,
the path, and whether a render was performed. -/
def rasterizeStep (cache : List String) (filename : String) (n : Nat)
    (renderOk : Bool) : List String × String × Bool :=
  let p := imagePath filename n
  if cache.contains p then (cache, p, false)
  else if renderOk then (p :: cache, p, true)
  else (cache, p, true)

/-! ## Basic facts about the classifier wrapper -/

/-- The wrapped classification is positive exactly when the outcome is not a
failure in the spec's sense. -/
lemma detect_magnifier_eq_not_failure (c : DetectOutcome) :
    detect_magnifier c = !classifierFailure c := by
  cases c with
  | raised => rfl
  | dict success found => simp [detect_magnifier, classifierFailure]
  | nondict truthy => simp [detect_magnifier, classifierFailure]

/-! ## Claim theorems: page pipeline -/

/-- C1: for every classifier-adapter failure outcome (raised exception,
malformed or non-conforming response, or explicit not-found),
`process_page` behaves identically to a found-false classification: it
returns the empty record list, the extractor is not consulted, and (the
failure constructors being absorbed here) no exception escapes. -/
theorem process_page_classifier_failure (c : DetectOutcome)
    (e : ExtractOutcome) (pid : Nat) (h : classifierFailure c = true) :
    process_page c e pid = process_page (.dict (some true) (some false)) e pid ∧
    (process_page c e pid).records = [] ∧
    (process_page c e pid).extractorInvoked = false := by
  have hd : detect_magnifier c = false := by
    rw [detect_magnifier_eq_not_failure, h]
    rfl
  have hd2 : detect_magnifier (.dict (some true) (some false)) = false := rfl
  refine ⟨?_, ?_, ?_⟩ <;>
    simp [process_page, hd, hd2]

/-- Witness for C1 at the concrete outcome of a raised classifier call. -/
theorem process_page_classifier_failure_witness :
    classifierFailure .raised = true ∧
    (process_page .raised .raised 7 =
      process_page (.dict (some true) (some false)) .raised 7 ∧
    (process_page .raised .raised 7).records = [] ∧
    (process_page .raised .raised 7).extractorInvoked = false) :=
  ⟨by decide, process_page_classifier_failure .raised .raised 7 (by decide)⟩

/-- C2: when the classifier adapter returns a negative classification, in
either of the shapes the source can see (a dict whose found entry is
falsy, or the Gemini bool False), `process_page` returns the empty record
list and never invokes the extractor. -/
theorem process_page_negative_classification (success : Option Bool)
    (e : ExtractOutcome) (pid : Nat) :
    process_page (.dict success (some false)) e pid =
      { records := [], extractorInvoked := false } ∧
    process_page (.nondict false) e pid =
      { records := [], extractorInvoked := false } := by
  constructor <;> simp [process_page, detect_magnifier]

/-- C3: when the classification is positive and the extractor returns a
well-formed `MagnifierPage`, `process_page` consults the extractor and
produces exactly one record per item, in item order, each with
`page_id = pid`, `has_magnifier = true`, and `cycle_id`, `page_number`
and text carried over from the corresponding item. -/
theorem process_page_extracted_records (c : DetectOutcome)
    (mp : MagnifierPage) (pid : Nat) (hc : detect_magnifier c = true) :
    (process_page c (.parsed mp) pid).records.length =
      mp.magnifier_items.length ∧
    (process_page c (.parsed mp) pid).extractorInvoked = true ∧
    ∀ (i : Nat) (hi : i < mp.magnifier_items.length),
      (process_page c (.parsed mp) pid).records.get? i =
        some { page_id := pid
               cycle_id := (mp.magnifier_items.get ⟨i, hi⟩).cycle_id
               page_number := (mp.magnifier_items.get ⟨i, hi⟩).page_number
               text := (mp.magnifier_items.get ⟨i, hi⟩).text_after_symbol
               has_magnifier := true } := by
  refine ⟨?_, ?_, ?_⟩
  · simp [process_page, hc, extract_magnifier_text]
  · simp [process_page, hc]
  · intro i hi
    simp only [process_page, hc, if_true, extract_magnifier_text]
    rw [List.get?_map, List.get?_eq_get hi]
    rfl

/-- A concrete one-item extractor response, used by witnesses. -/
def mpW : MagnifierPage := ⟨[⟨5, .str "i", "see note"⟩]⟩

/-- Witness for C3 on a positive bool classification and a one-item page. -/
theorem process_page_extracted_records_witness :
    detect_magnifier (.nondict true) = true ∧
    (process_page (.nondict true) (.parsed mpW) 2).records.length =
      mpW.magnifier_items.length ∧
    (process_page (.nondict true) (.parsed mpW) 2).extractorInvoked = true ∧
    (process_page (.nondict true) (.parsed mpW) 2).records.get? 0 =
      some { page_id := 2, cycle_id := 5, page_number := .str "i"
             text := "see note", has_magnifier := true } := by
  have h := process_page_extracted_records (.nondict true) mpW 2 rfl
  exact ⟨rfl, h.1, h.2.1, by simpa using h.2.2 0 (by decide)⟩

/-- C6: whatever the classification outcome, an extractor outcome that is
empty, failed to parse or validate against the schema, fell back to the
error dict, or raised, makes `process_page` return the empty record list
rather than an error. -/
theorem process_page_extractor_failure (c : DetectOutcome) (pid : Nat) :
    (process_page c (.parsed ⟨[]⟩) pid).records = [] ∧
    (process_page c .noneResult pid).records = [] ∧
    (process_page c .fallbackDict pid).records = [] ∧
    (process_page c .raised pid).records = [] := by
  refine ⟨?_, ?_, ?_, ?_⟩ <;>
    cases hd : detect_magnifier c <;>
      simp [process_page, hd, extract_magnifier_text]

/-! ## Claim theorems: input validation and classifier shapes -/

/-- C9: `validate_pdf` accepts exactly the non-None files whose lowercased
name ends in .pdf and whose size is at most 50 MiB; in particular an
uppercase .PDF name passes, a file of exactly 50 * 1024 * 1024 bytes
passes (the size check is strict greater-than), and None is rejected. -/
theorem validate_pdf_characterization :
    validate_pdf none = false ∧
    (∀ f : UploadedFile,
      validate_pdf (some f) = true ↔
        pyEndsWith (pyLower f.name) ".pdf" = true ∧
          f.size ≤ 50 * 1024 * 1024) ∧
    validate_pdf (some ⟨"REPORT.PDF", 50 * 1024 * 1024⟩) = true ∧
    validate_pdf (some ⟨"report.pdf", 50 * 1024 * 1024 + 1⟩) = false := by
  refine ⟨rfl, ?_, by decide, by decide⟩
  intro f
  simp only [validate_pdf]
  split_ifs with h1 h2
  · simp only [Bool.not_eq_true'] at h1
    simp [h1]
  · simp only [Bool.not_eq_true', Bool.not_eq_false] at h1
    simp [h1, Nat.not_le.mpr h2]
  · simp only [Bool.not_eq_true', Bool.not_eq_false] at h1
    simp [h1, Nat.not_lt.mp h2]

/-- C10: the classifier wrapper's handling of the union of result shapes:
a dict yields true only when both success and found entries are present
and truthy (so the exception dict from the Gemini adapter, and a dict
whose found key is absent, yield false); a non-dict is coerced with bool,
which on the Gemini path is true exactly when the stripped, lowercased
response text equals yes. -/
theorem detect_magnifier_shapes :
    (∀ success found : Option Bool,
      detect_magnifier (.dict success found) =
        (success.getD false && found.getD false)) ∧
    (∀ truthy : Bool, detect_magnifier (.nondict truthy) = truthy) ∧
    detect_magnifier (detect_magnifier_gemini .exn) = false ∧
    (∀ found : Option Bool,
      detect_magnifier (.dict (some false) found) = false) ∧
    (∀ sv : Bool, detect_magnifier (.dict (some sv) none) = false) ∧
    (∀ t : String,
      detect_magnifier (detect_magnifier_gemini (.ok t)) =
        (pyLower (pyStrip t) == "yes")) := by
  refine ⟨fun _ _ => rfl, fun _ => rfl, rfl, fun _ => rfl, ?_, fun _ => rfl⟩
  intro sv
  cases sv <;> rfl

/-! ## Structure of the processing loop -/

/-- The status-text and progress-bar numbers emitted for page `pid`. -/
def updateFor (totalPages start endp pid : Nat) : ProgressUpdate :=
  ⟨pid, totalPages, pid - start + 1, endp + 1 - start⟩

/-- Unrolling the loop: the fold appends one record chunk, one progress
update and one iteration count per visited page id. -/
lemma foldl_runStep_eq (totalPages start endp : Nat) (envs : Nat → PageEnv)
    (l : List Nat) (st : RunState) :
    l.foldl (runStep totalPages start endp envs) st =
      { records := st.records ++
          l.flatMap (fun pid => mainPageRecords (envs pid) pid)
        updates := st.updates ++ l.map (updateFor totalPages start endp)
        pagesIterated := st.pagesIterated + l.length } := by
  induction l generalizing st with
  | nil => simp
  | cons a l ih =>
    rw [List.foldl_cons, ih]
    simp [runStep, updateFor, List.flatMap_cons]
    omega

/-- Closed form of the whole run. -/
lemma runRange_eq (totalPages start endp : Nat) (envs : Nat → PageEnv) :
    runRange totalPages start endp envs =
      { records := (pageIds start endp).flatMap
          (fun pid => mainPageRecords (envs pid) pid)
        updates := (pageIds start endp).map (updateFor totalPages start endp)
        pagesIterated := endp + 1 - start } := by
  rw [runRange, foldl_runStep_eq]
  simp [pageIds, List.length_range']

/-- Every record a page contributes carries that page's 1-based id. -/
lemma extract_magnifier_text_page_id (outcome : ExtractOutcome) (pid : Nat)
    (r : MarkerRecord) (hr : r ∈ extract_magnifier_text outcome pid) :
    r.page_id = pid := by
  cases outcome with
  | parsed mp =>
    simp only [extract_magnifier_text, List.mem_map] at hr
    obtain ⟨item, _, rfl⟩ := hr
    rfl
  | noneResult => simp [extract_magnifier_text] at hr
  | fallbackDict => simp [extract_magnifier_text] at hr
  | raised => simp [extract_magnifier_text] at hr

/-- Every record `mainPageRecords` yields for page `pid` has
`page_id = pid`. -/
lemma mainPageRecords_page_id (env : PageEnv) (pid : Nat) (r : MarkerRecord)
    (hr : r ∈ mainPageRecords env pid) : r.page_id = pid := by
  unfold mainPageRecords at hr
  split at hr
  · split at hr
    · exact extract_magnifier_text_page_id env.extractor pid r hr
    · simp at hr
  · simp at hr

/-- Filtering the records of unvisited pages out of a chunk of visited
pages leaves nothing. -/
lemma filter_flatMap_not_mem (envs : Nat → PageEnv) (pid : Nat)
    (l : List Nat) (hnot : pid ∉ l) :
    ((l.flatMap (fun p => mainPageRecords (envs p) p)).filter
      (fun r => r.page_id == pid)) = [] := by
  induction l with
  | nil => rfl
  | cons a l ih =>
    rw [List.flatMap_cons, List.filter_append]
    have ha : a ≠ pid := fun h => hnot (h ▸ List.mem_cons_self a l)
    have h1 : ((mainPageRecords (envs a) a).filter
        (fun r => r.page_id == pid)) = [] := by
      rw [List.filter_eq_nil]
      intro r hr
      simp [mainPageRecords_page_id (envs a) a r hr, ha]
    rw [h1, List.nil_append]
    exact ih (fun h => hnot (List.mem_cons_of_mem a h))

/-- Filtering a visited, non-repeated page id out of the concatenated
records recovers exactly that page's chunk. -/
lemma filter_flatMap_mem (envs : Nat → PageEnv) (pid : Nat)
    (l : List Nat) (hmem : pid ∈ l) (hnd : l.Nodup) :
    ((l.flatMap (fun p => mainPageRecords (envs p) p)).filter
      (fun r => r.page_id == pid)) = mainPageRecords (envs pid) pid := by
  induction l with
  | nil => cases hmem
  | cons a l ih =>
    rw [List.flatMap_cons, List.filter_append]
    rcases List.mem_cons.mp hmem with rfl | hmem'
    · have h1 : ((mainPageRecords (envs pid) pid).filter
          (fun r => r.page_id == pid)) = mainPageRecords (envs pid) pid := by
        rw [List.filter_eq_self]
        intro r hr
        simp [mainPageRecords_page_id (envs pid) pid r hr]
      rw [h1, filter_flatMap_not_mem envs pid l (List.nodup_cons.mp hnd).1,
        List.append_nil]
    · have ha : a ≠ pid := by
        rintro rfl
        exact (List.nodup_cons.mp hnd).1 hmem'
      have h1 : ((mainPageRecords (envs a) a).filter
          (fun r => r.page_id == pid)) = [] := by
        rw [List.filter_eq_nil]
        intro r hr
        simp [mainPageRecords_page_id (envs a) a r hr, ha]
      rw [h1, List.nil_append]
      exact ih hmem' (List.nodup_cons.mp hnd).2

/-! ## Claim theorems: run orchestrator -/

/-- C4 (amended): over a valid closed range the loop runs exactly
`end - start + 1` iterations whatever the adapter outcomes, and the
count reported at the end is the total number of accumulated records. -/
theorem run_pages_attempted (totalPages start endp : Nat)
    (envs : Nat → PageEnv) (h1 : 1 ≤ start) (h2 : start ≤ endp)
    (h3 : endp ≤ totalPages) :
    (runRange totalPages start endp envs).pagesIterated =
      endp - start + 1 ∧
    finalTally totalPages start endp envs =
      (runRange totalPages start endp envs).records.length := by
  refine ⟨?_, rfl⟩
  rw [runRange_eq]
  show endp + 1 - start = endp - start + 1
  omega

/-- A run environment where every adapter call fails. -/
def envFail : Nat → PageEnv := fun _ => ⟨.raised, .raised, .raised⟩

/-- Witness for C4 (amended) on the all-failing range 2..4 of 5 pages. -/
theorem run_pages_attempted_witness :
    ((1 : Nat) ≤ 2 ∧ (2 : Nat) ≤ 4 ∧ (4 : Nat) ≤ 5) ∧
    ((runRange 5 2 4 envFail).pagesIterated = 4 - 2 + 1 ∧
     finalTally 5 2 4 envFail = (runRange 5 2 4 envFail).records.length) :=
  ⟨by decide,
   run_pages_attempted 5 2 4 envFail (by decide) (by decide) (by decide)⟩

/-- A run environment whose single page yields two records. -/
def envTwoRecords : Nat → PageEnv := fun _ =>
  ⟨.cached, .nondict true, .parsed ⟨[⟨1, .null, "a"⟩, ⟨2, .null, "b"⟩]⟩⟩

/-- Counterexample for C4 as stated: the count the run reports is the
total number of records, which differs from the number of distinct pages
contributing at least one record as soon as one page yields two records;
no distinct-page count is computed anywhere in the run. -/
theorem run_tally_ne_distinct_pages :
    finalTally 1 1 1 envTwoRecords = 2 ∧
    distinctPagesWithRecords (runRange 1 1 1 envTwoRecords).records = 1 ∧
    finalTally 1 1 1 envTwoRecords ≠
      distinctPagesWithRecords (runRange 1 1 1 envTwoRecords).records := by
  decide

/-- C5: the accumulated records are, for any interleaving of per-page
successes and failures, exactly the per-page chunks in ascending page
order; they are sorted by `page_id`, and the records of each visited page
are exactly that page's chunk in the order the extractor returned it. -/
theorem run_records_ordered (totalPages start endp : Nat)
    (envs : Nat → PageEnv) :
    (runRange totalPages start endp envs).records =
      (pageIds start endp).flatMap
        (fun pid => mainPageRecords (envs pid) pid) ∧
    ((runRange totalPages start endp envs).records).Pairwise
      (fun a b => a.page_id ≤ b.page_id) ∧
    ∀ pid : Nat, start ≤ pid → pid ≤ endp →
      ((runRange totalPages start endp envs).records).filter
          (fun r => r.page_id == pid) =
        mainPageRecords (envs pid) pid := by
  have hrec : (runRange totalPages start endp envs).records =
      (pageIds start endp).flatMap
        (fun pid => mainPageRecords (envs pid) pid) := by
    rw [runRange_eq]
  refine ⟨hrec, ?_, ?_⟩
  · rw [hrec, List.flatMap_def, List.pairwise_flatten]
    constructor
    · intro chunk hchunk
      rw [List.mem_map] at hchunk
      obtain ⟨pid, _, rfl⟩ := hchunk
      apply List.pairwise_of_forall_mem_list
      intro a ha b hb
      rw [mainPageRecords_page_id (envs pid) pid a ha,
        mainPageRecords_page_id (envs pid) pid b hb]
    · rw [List.pairwise_map]
      apply List.Pairwise.imp ?_ (List.pairwise_lt_range' start _)
      intro p q hpq x hx y hy
      rw [mainPageRecords_page_id (envs p) p x hx,
        mainPageRecords_page_id (envs q) q y hy]
      exact Nat.le_of_lt hpq
  · intro pid hs he
    rw [hrec]
    apply filter_flatMap_mem
    · rw [pageIds, List.mem_range'_1]
      omega
    · exact List.nodup_range' start _

/-- A two-page run environment: page 1 positive with one extracted item,
page 2 classified negative. -/
def envC5 : Nat → PageEnv := fun pid =>
  if pid == 1 then
    ⟨.cached, .nondict true, .parsed ⟨[⟨1, .str "i", "see note"⟩]⟩⟩
  else ⟨.cached, .nondict false, .noneResult⟩

/-- Witness for C5 on the concrete two-page run. -/
theorem run_records_ordered_witness :
    ((1 : Nat) ≤ 1 ∧ (1 : Nat) ≤ 2) ∧
    ((runRange 2 1 2 envC5).records).filter (fun r => r.page_id == 1) =
      mainPageRecords (envC5 1) 1 :=
  ⟨by decide,
   (run_records_ordered 2 1 2 envC5).2.2 1 (by decide) (by decide)⟩

/-- C7 (amended): exactly one progress update is emitted per page of the
range; the k-th update carries the absolute page number, the document
page count, and the position within the range over the range size (the
bar ratio's numerator and denominator), and the updates are monotone. -/
theorem run_progress_updates (totalPages start endp : Nat)
    (envs : Nat → PageEnv) (h2 : start ≤ endp) :
    (runRange totalPages start endp envs).updates.length =
      endp - start + 1 ∧
    (∀ k : Nat, k < endp - start + 1 →
      (runRange totalPages start endp envs).updates.get? k =
        some ⟨start + k, totalPages, k + 1, endp - start + 1⟩) ∧
    ((runRange totalPages start endp envs).updates).Pairwise
      (fun u v => u.pageInRange ≤ v.pageInRange) := by
  have hu : (runRange totalPages start endp envs).updates =
      (pageIds start endp).map (updateFor totalPages start endp) := by
    rw [runRange_eq]
  refine ⟨?_, ?_, ?_⟩
  · rw [hu]
    simp [pageIds, List.length_range']
    omega
  · intro k hk
    rw [hu, List.get?_map, pageIds, List.get?_range' start 1 (by omega)]
    simp only [Option.map_some']
    have h1 : updateFor totalPages start endp (start + 1 * k) =
        ⟨start + k, totalPages, k + 1, endp - start + 1⟩ := by
      unfold updateFor
      congr 1 <;> omega
    rw [h1]
  · rw [hu, List.pairwise_map]
    apply List.Pairwise.imp ?_ (List.pairwise_lt_range' start _)
    intro p q hpq
    unfold updateFor
    simp only
    omega

/-- A two-page run environment: page 1 positive with three extracted
items, page 2 negative. -/
def envC7 : Nat → PageEnv := fun pid =>
  if pid == 1 then
    ⟨.cached, .nondict true,
     .parsed ⟨[⟨1, .null, "a"⟩, ⟨2, .null, "b"⟩, ⟨3, .null, "c"⟩]⟩⟩
  else ⟨.cached, .nondict false, .noneResult⟩

/-- Witness for C7 (amended) on the concrete two-page run. -/
theorem run_progress_updates_witness :
    (1 : Nat) ≤ 2 ∧
    (runRange 2 1 2 envC7).updates.length = 2 - 1 + 1 ∧
    (runRange 2 1 2 envC7).updates.get? 0 = some ⟨1, 2, 1, 2⟩ ∧
    (runRange 2 1 2 envC7).updates.get? 1 = some ⟨2, 2, 2, 2⟩ :=
  ⟨by decide,
   (run_progress_updates 2 1 2 envC7 (by decide)).1,
   (run_progress_updates 2 1 2 envC7 (by decide)).2.1 0 (by decide),
   (run_progress_updates 2 1 2 envC7 (by decide)).2.1 1 (by decide)⟩

/-- True when some number shown by one of the emitted updates is `n`. -/
def carriesInUpdates (updates : List ProgressUpdate) (n : Nat) : Bool :=
  updates.any (fun u =>
    u.pageAbs == n || u.totalPages == n ||
      u.pageInRange == n || u.totalInRange == n)

/-- Counterexample for C7 as stated: in a run whose first page yields
three records, no emitted progress update carries the running record
count 3 anywhere; the updates only show page positions and totals. -/
theorem progress_lacks_record_count :
    (runRange 2 1 2 envC7).records.length = 3 ∧
    carriesInUpdates (runRange 2 1 2 envC7).updates 3 = false := by
  decide

/-! ## Claim theorems: rasterizer cache -/

/-- Counterexample for C8 as stated: the cached image path used by the
code carries a leading data directory component absent from the path
pattern the claim states. -/
theorem imagePath_ne_spec_path :
    imagePath "doc" 3 ≠ specCachePath "doc" 3 ∧
    imagePath "doc" 3 = "data/doc/images/page_3.png" := by
  decide

/-- C8 (amended): the rasterizer step always yields the deterministic path
data/(name)/images/page_(n).png; when the cache file exists no render is
performed and the cache is unchanged; and after a successful call a
second call for the same page renders nothing and yields the same path
and cache, so calling twice equals calling once. -/
theorem rasterizeStep_idempotent (cache : List String) (filename : String)
    (n : Nat) (ok1 ok2 : Bool) :
    (rasterizeStep cache filename n ok1).2.1 = imagePath filename n ∧
    (cache.contains (imagePath filename n) = true →
      rasterizeStep cache filename n ok1 =
        (cache, imagePath filename n, false)) ∧
    (ok1 = true →
      rasterizeStep (rasterizeStep cache filename n ok1).1 filename n ok2 =
        ((rasterizeStep cache filename n ok1).1,
          imagePath filename n, false)) := by
  refine ⟨?_, ?_, ?_⟩
  · unfold rasterizeStep
    by_cases hc : imagePath filename n ∈ cache
    · simp [hc]
    · by_cases ho : ok1 = true <;> simp [hc, ho]
  · intro h
    unfold rasterizeStep
    simp only [h, if_true]
  · intro h
    subst h
    by_cases hc : imagePath filename n ∈ cache
    · simp [rasterizeStep, hc]
    · simp [rasterizeStep, hc]

/-- Witness for C8 (amended): starting from an empty cache, rendering page
3 of doc once and calling again renders nothing the second time. -/
theorem rasterizeStep_idempotent_witness :
    ([imagePath "doc" 3].contains (imagePath "doc" 3) = true ∧
      rasterizeStep [imagePath "doc" 3] "doc" 3 true =
        ([imagePath "doc" 3], imagePath "doc" 3, false)) ∧
    (true = true ∧
      rasterizeStep (rasterizeStep [] "doc" 3 true).1 "doc" 3 false =
        ((rasterizeStep [] "doc" 3 true).1, imagePath "doc" 3, false)) :=
  ⟨⟨by decide,
    (rasterizeStep_idempotent [imagePath "doc" 3] "doc" 3 true false).2.1
      (by decide)⟩,
   ⟨rfl, (rasterizeStep_idempotent [] "doc" 3 true false).2.2 rfl⟩⟩

end Magnifier
